import Mathlib

/-!
Shallow embedding of `src/device.rs` of libv4l-rs: the `Device` control
protocol (`query_controls`, `control`, `set_controls`) and the `Handle`
reference-count lifecycle.  Kernel interaction (`ioctl`) is modelled as an
explicit driver oracle passed to each operation; the number of kernel calls
issued is returned alongside each result where a claim depends on it.
-/

namespace LibV4l

/-- Error-kind classes of `std::io::ErrorKind` that the code inspects or
produces: `InvalidInput` is matched on explicitly (`query_controls`,
`set_controls`); the rest stand for the other kinds an OS call may report. -/
inductive ErrKind where
  | invalidInput
  | notFound
  | permissionDenied
  | other
deriving DecidableEq

/-- `std::io::Error`, reduced to what the code observes: a kind and, for
errors built locally with `io::Error::new(kind, msg)`, the message. -/
inductive IoError where
  | custom (kind : ErrKind) (msg : String)
  | os (kind : ErrKind)
deriving DecidableEq

/-- `io::Error::kind()`. -/
def IoError.kind : IoError → ErrKind
  | .custom k _ => k
  | .os k => k

/-- Modelled from the spec: `control::Type` (control.rs is not under src/).
"type tag (Integer, Integer64, Boolean, Menu, IntegerMenu, String, compound
variants, ...)". -/
inductive CtrlType where
  | integer
  | boolean
  | menu
  | button
  | integer64
  | ctrlClass
  | string
  | bitmask
  | integerMenu
  | u8
  | u16
  | u32
deriving DecidableEq

/-- The raw fields of a successful `VIDIOC_QUERYMENU` reply that
`control::MenuItem::try_from` reads: the item name (Menu controls) and the
item value (IntegerMenu controls). -/
structure MenuRaw where
  name : String
  value : Int
deriving DecidableEq

/-- Modelled from the spec: `control::MenuItem` (control.rs is not under
src/), the per-item payload of a menu control. -/
inductive MenuItem where
  | name (s : String)
  | value (v : Int)
deriving DecidableEq

/-- Modelled from the spec: `control::MenuItem::try_from((Type, v4l2_querymenu))`
(control.rs is not under src/).  `query_controls` only invokes it for Menu and
IntegerMenu controls, where it always succeeds: the name for Menu, the value
for IntegerMenu. -/
def menuItemFrom (typ : CtrlType) (raw : MenuRaw) : MenuItem :=
  match typ with
  | .integerMenu => .value raw.value
  | _ => .name raw.name

/-- Modelled from the spec: `control::Description` (control.rs is not under
src/): "identifier, type tag, numeric bounds (minimum, maximum, step),
default value, optional ordered list of (index, MenuItem) pairs". -/
structure Description where
  id : Nat
  typ : CtrlType
  minimum : Int
  maximum : Int
  step : Int
  default : Int
  items : Option (List (Nat × MenuItem))
deriving DecidableEq

/-- Modelled from the spec: `control::Value` (control.rs is not under src/):
"tagged union: None, Integer(64-bit signed), Boolean, String, or one of
several compound byte/word/dword buffer variants". -/
inductive Value where
  | none
  | integer (v : Int)
  | boolean (b : Bool)
  | string (s : String)
  | compoundU8 (buf : List Nat)
  | compoundU16 (buf : List Nat)
  | compoundU32 (buf : List Nat)
  | compoundPtr (buf : List Nat)
deriving DecidableEq

/-- Modelled from the spec: `control::Control` (control.rs is not under
src/): "a Control pairs an identifier with a Value". -/
structure Control where
  id : Nat
  value : Value
deriving DecidableEq

/-- The fields of a `v4l2_queryctrl` struct a driver fills on a successful
`VIDIOC_QUERYCTRL`: the (advanced) control id, its type and numeric bounds.
`minimum`, `maximum`, `step` and `default_value` are `__s32` in the kernel
ABI. -/
structure QCtrlInfo where
  id : Nat
  typ : CtrlType
  minimum : Int
  maximum : Int
  step : Int
  default : Int
deriving DecidableEq

/-- Modelled from the spec: `control::Description::from(v4l2_queryctrl)`
(control.rs is not under src/).  The conversion copies the scalar metadata;
`items` starts unpopulated — `query_controls` fills it for menu types only. -/
def descriptionFrom (info : QCtrlInfo) : Description :=
  { id := info.id
    typ := info.typ
    minimum := info.minimum
    maximum := info.maximum
    step := info.step
    default := info.default
    items := none }

/-- Modelled from the spec: `V4L2_CTRL_FLAG_NEXT_CTRL` (kernel ABI constant,
v4l_sys is not under src/). -/
def flagNextCtrl : Nat := 0x80000000

/-- Modelled from the spec: `V4L2_CTRL_FLAG_NEXT_COMPOUND` (kernel ABI
constant, v4l_sys is not under src/). -/
def flagNextCompound : Nat := 0x40000000

/-- `i as u32` on a signed value: the unsigned 32-bit bit pattern. -/
def toU32 (i : Int) : Nat := (i % (2 ^ 32 : Int)).toNat

/-- Number of indices yielded by `(lo..=hi).step_by(step)` for `step > 0`:
`⌊(hi - lo) / step⌋ + 1` when `lo ≤ hi`, `0` otherwise. -/
def gridCount (lo hi step : Int) : Nat :=
  if lo ≤ hi then ((hi - lo) / step).toNat + 1 else 0

/-- The index sequence of `(lo..=hi).step_by(step)`:
`lo, lo + step, lo + 2*step, ...` while `≤ hi`. -/
def menuIndices (lo hi step : Int) : List Int :=
  (List.range (gridCount lo hi step)).map fun (k : Nat) => lo + step * (k : Int)

/-- The menu-item enumeration loop of `query_controls` (device.rs lines
126-153): step from `minimum` to `maximum` by `step`; for each index issue a
`VIDIOC_QUERYMENU` (the oracle `query`, applied to the index cast `as u32`,
`none` meaning the ioctl failed); failures are skipped, successes are
appended as `(index, MenuItem)` pairs. -/
def menuScan (query : Nat → Option MenuRaw) (typ : CtrlType) (lo hi step : Int) :
    List (Nat × MenuItem) :=
  (menuIndices lo hi step).filterMap fun i =>
    (query (toU32 i)).map fun raw => (toU32 i, menuItemFrom typ raw)

/-- A simulated driver: the kernel side of the two ioctls `query_controls`
issues.  `queryCtrl` receives the cursor id with the NEXT flags OR-ed in and
either fails or fills the `v4l2_queryctrl` struct; `queryMenu` receives the
control id and an item index and either fails (`none`) or fills the
`v4l2_querymenu` struct. -/
structure Driver where
  queryCtrl : Nat → Except IoError QCtrlInfo
  queryMenu : Nat → Nat → Option MenuRaw

/-- Result of the `query_controls` model: the loop returns a list or an
error; `outOfFuel` marks runs cut off by the fuel bound (the Rust loop has no
such bound). -/
inductive QCOutcome where
  | ok (l : List Description)
  | err (e : IoError)
  | outOfFuel
deriving DecidableEq

/-- The `query_controls` loop (device.rs lines 105-168).  `curId` is the
`v4l2_ctrl.id` cursor left by the previous iteration (driver-written control
id; `0` initially); each round ORs the NEXT flags into it and queries.  On
success the control is described (menu items enumerated for Menu/IntegerMenu
types) and accumulated; on failure the loop returns the error when no control
was collected yet or the kind is not `InvalidInput`, and otherwise ends the
enumeration. -/
def queryControlsAux (d : Driver) : Nat → Nat → List Description → QCOutcome
  | 0, _, _ => .outOfFuel
  | fuel + 1, curId, acc =>
    let qid := curId ||| flagNextCtrl ||| flagNextCompound
    match d.queryCtrl qid with
    | .ok info =>
      let base := descriptionFrom info
      let ctrl :=
        if base.typ = CtrlType.menu ∨ base.typ = CtrlType.integerMenu then
          { base with
            items := some (menuScan (d.queryMenu info.id) base.typ
                      info.minimum info.maximum info.step) }
        else base
      queryControlsAux d fuel info.id (ctrl :: acc)
    | .error e =>
      if acc.isEmpty ∨ e.kind ≠ ErrKind.invalidInput then .err e
      else .ok acc.reverse

/-- `Device::query_controls` (device.rs lines 100-172), run against a
simulated driver with a fuel bound on the number of loop iterations. -/
def query_controls (d : Driver) (fuel : Nat) : QCOutcome :=
  queryControlsAux d fuel 0 []

/-- `raw as i64` where `raw` holds the bit pattern of an `__s32`
(`v4l2_control.value`): sign extension of the 32-bit value. -/
def signExtend32 (raw : Nat) : Int :=
  if raw < 2 ^ 31 then (raw : Int) else (raw : Int) - 2 ^ 32

/-- `Device::control(id)` (device.rs lines 179-216) against a simulated
driver: `qc` is the driver's reply to the `VIDIOC_QUERYCTRL` for `id`, `gc`
its reply to `VIDIOC_G_CTRL` (the raw `__s32` bit pattern).  Returns the
fetched control together with the number of ioctls issued. -/
def control (qc : Except IoError QCtrlInfo) (gc : Except IoError Nat) (id : Nat) :
    Except IoError Control × Nat :=
  match qc with
  | .error e => (.error e, 1)
  | .ok info =>
    match gc with
    | .error e => (.error e, 2)
    | .ok raw =>
      match (descriptionFrom info).typ with
      | .integer | .integer64 => (.ok ⟨id, .integer (signExtend32 raw)⟩, 2)
      | .boolean => (.ok ⟨id, .boolean (raw == 1)⟩, 2)
      | _ => (.error (.custom .other "cannot handle control type"), 2)

/-- The payload a `Value` is marshalled into inside a `v4l2_ext_control`
(the C union): an 8-byte integer, or a pointer to caller-owned data (modelled
as the data itself). -/
inductive Payload where
  | none
  | value64 (v : Int)
  | strData (s : String)
  | u8Data (buf : List Nat)
  | u16Data (buf : List Nat)
  | u32Data (buf : List Nat)
  | ptrData (buf : List Nat)
deriving DecidableEq

/-- A marshalled `v4l2_ext_control` entry: id, size and union payload. -/
structure ExtControl where
  id : Nat
  size : Nat
  payload : Payload
deriving DecidableEq

/-- The per-control marshalling of `set_controls` (device.rs lines 248-297,
the `match ctrl.value` arm): Integer/Boolean become an 8-byte `value64`
(`true as i64 = 1`), String and the compound variants become a pointer plus
byte length into the caller's buffer. -/
def marshal (c : Control) : ExtControl :=
  match c.value with
  | .none => { id := c.id, size := 0, payload := .none }
  | .integer v => { id := c.id, size := 8, payload := .value64 v }
  | .boolean b => { id := c.id, size := 8, payload := .value64 (if b then 1 else 0) }
  | .string s => { id := c.id, size := s.length, payload := .strData s }
  | .compoundU8 buf => { id := c.id, size := buf.length * 1, payload := .u8Data buf }
  | .compoundU16 buf => { id := c.id, size := buf.length * 2, payload := .u16Data buf }
  | .compoundU32 buf => { id := c.id, size := buf.length * 4, payload := .u32Data buf }
  | .compoundPtr buf => { id := c.id, size := buf.length * 1, payload := .ptrData buf }

/-- The per-control loop of `set_controls` (device.rs lines 247-298): for
each control, derive its class (`id & 0xFFFF0000`); the first control fixes
the batch class, a later control of a different class aborts with the
"All controls must be in the same class" error; otherwise the control is
marshalled and appended.  Returns the determined class (if any) and the
marshalled list. -/
def setControlsLoop : List Control → Option Nat → List ExtControl →
    Except String (Option Nat × List ExtControl)
  | [], cls?, acc => .ok (cls?, acc.reverse)
  | c :: rest, cls?, acc =>
    let elemClass := c.id &&& 0xFFFF0000
    match cls? with
    | some k =>
      if k ≠ elemClass then .error "All controls must be in the same class"
      else setControlsLoop rest (some k) (marshal c :: acc)
    | none => setControlsLoop rest (some elemClass) (marshal c :: acc)

/-- `Device::set_controls` (device.rs lines 232-317) against a simulated
kernel `kern` (the `VIDIOC_S_EXT_CTRLS` ioctl, given the batch class in
`controls.which` and the marshalled control list).  Returns the result
together with the number of ioctls issued.  `controls.count` is
`ctrls.len() as u32`, hence the `% 2^32`. -/
def set_controls (kern : Nat → List ExtControl → Except IoError Unit)
    (ctrls : List Control) : Except IoError Unit × Nat :=
  let count := ctrls.length % 2 ^ 32
  if count = 0 then
    (.error (.custom .invalidInput "ctrls cannot be empty"), 0)
  else
    match setControlsLoop ctrls none [] with
    | .error msg => (.error (.custom .invalidInput msg), 0)
    | .ok (some cls, lst) => (kern cls lst, 1)
    | .ok (none, _) =>
      (.error (.custom .invalidInput "failed to determine control class"), 0)

/-- Modelled from the spec: the reference-count state of a `Handle` shared
through `std::sync::Arc` (not part of src/): "shared (reference-counted,
last holder releases) across all consumers of the Device; released (resource
closed) exactly once, when the last reference is dropped".  `count` is the
number of live references, `closed` how many times the resource was
closed. -/
structure RcState where
  count : Nat
  closed : Nat
deriving DecidableEq

/-- The single reference held by a freshly opened `Device`. -/
def rcInit : RcState := { count := 1, closed := 0 }

/-- `Device::handle` (device.rs lines 81-83): `self.handle.clone()`
increments the reference count; the resource is untouched. -/
def cloneRef (s : RcState) : RcState := { s with count := s.count + 1 }

/-- Dropping one reference: the decrement of the Arc count, which on
reaching zero runs `Drop for Handle` (device.rs lines 379-383) and closes
the resource once. -/
def dropRef (s : RcState) : RcState :=
  if s.count = 1 then { count := 0, closed := s.closed + 1 }
  else { s with count := s.count - 1 }

/-- A driver whose very first "next control" query fails with
`ErrorKind::InvalidInput` (a device advertising zero controls). -/
def emptyDriver : Driver :=
  { queryCtrl := fun _ => .error (.os .invalidInput)
    queryMenu := fun _ _ => Option.none }

/-- A driver advertising two controls: control 1 (Integer) and control 2
(Menu over indices 0..1, index 1 unsupported); the third "next control"
query fails with `InvalidInput`. -/
def twoCtrlDriver : Driver :=
  { queryCtrl := fun qid =>
      if qid = (0 ||| flagNextCtrl ||| flagNextCompound) then
        .ok { id := 1, typ := .integer, minimum := 0, maximum := 100,
              step := 1, default := 50 }
      else if qid = (1 ||| flagNextCtrl ||| flagNextCompound) then
        .ok { id := 2, typ := .menu, minimum := 0, maximum := 1,
              step := 1, default := 0 }
      else .error (.os .invalidInput)
    queryMenu := fun _ idx => if idx = 0 then some ⟨"auto", 0⟩ else Option.none }

/-- The control sequence `twoCtrlDriver` yields. -/
def twoCtrlList : List Description :=
  [{ id := 1, typ := .integer, minimum := 0, maximum := 100, step := 1,
     default := 50, items := Option.none },
   { id := 2, typ := .menu, minimum := 0, maximum := 1, step := 1,
     default := 0, items := some [(0, .name "auto")] }]

/-- The menu description among them. -/
def menuDescEx : Description :=
  { id := 2, typ := .menu, minimum := 0, maximum := 1, step := 1,
    default := 0, items := some [(0, .name "auto")] }

/-- A per-item query oracle failing exactly at index 2. -/
def sampleMenuQuery : Nat → Option MenuRaw :=
  fun n => if n = 2 then Option.none else some ⟨"item", (n : Int)⟩

/-- A kernel oracle that accepts any batch. -/
def okKernel : Nat → List ExtControl → Except IoError Unit :=
  fun _ _ => .ok ()

/-- A Boolean-typed control description as reported by a driver. -/
def boolInfoEx : QCtrlInfo :=
  { id := 9, typ := .boolean, minimum := 0, maximum := 1, step := 1, default := 0 }

/-- A String-typed control description as reported by a driver. -/
def strInfoEx : QCtrlInfo :=
  { id := 5, typ := .string, minimum := 0, maximum := 31, step := 1, default := 0 }

/-- An Integer64-typed control description as reported by a driver. -/
def i64InfoEx : QCtrlInfo :=
  { id := 7, typ := .integer64, minimum := 0, maximum := 0, step := 1, default := 0 }

/-- A user-class control (class bits `0x00980000`). -/
def ctrlA : Control := { id := 0x00980900, value := .boolean true }

/-- A camera-class control (class bits `0x009A0000`). -/
def ctrlB : Control := { id := 0x009A0900, value := .integer 5 }

/-- A batch mixing the two classes. -/
def mixedPair : List Control := [ctrlA, ctrlB]

end LibV4l

namespace LibV4l

/-- C1 counterexample: against a driver whose very first "next control"
query fails with `ErrorKind::InvalidInput`, `query_controls` propagates the
error instead of returning the empty, non-error sequence the claim
promises. -/
theorem query_controls_empty_device_counterexample :
    query_controls emptyDriver 5 = QCOutcome.err (IoError.os ErrKind.invalidInput) ∧
    query_controls emptyDriver 5 ≠ QCOutcome.ok [] :=
  ⟨rfl, by decide⟩

/-- C1 (amended): if the very first "next control" query fails — with any
error, in particular an invalid-argument-class one — `query_controls`
returns that error; the empty-accumulator check of the termination test
(device.rs line 161) forces the error path. -/
theorem query_controls_first_error_propagates (d : Driver) (n : Nat) (e : IoError)
    (h : d.queryCtrl (0 ||| flagNextCtrl ||| flagNextCompound) = .error e) :
    query_controls d (n + 1) = QCOutcome.err e := by
  have h' : d.queryCtrl (flagNextCtrl ||| flagNextCompound) = .error e := by
    simpa using h
  simp [query_controls, queryControlsAux, h']

/-- C1 witness: the amended behaviour at the concrete zero-control driver. -/
theorem query_controls_first_error_propagates_witness :
    emptyDriver.queryCtrl (0 ||| flagNextCtrl ||| flagNextCompound) =
      .error (IoError.os ErrKind.invalidInput) ∧
    query_controls emptyDriver 5 = QCOutcome.err (IoError.os ErrKind.invalidInput) :=
  ⟨rfl, query_controls_first_error_propagates emptyDriver 4 (IoError.os ErrKind.invalidInput) rfl⟩

/-- C3: `set_controls` on the empty sequence fails with the invalid-input
error "ctrls cannot be empty" and issues no kernel call (the ioctl counter
is 0), for every kernel behaviour. -/
theorem set_controls_empty_invalid (kern : Nat → List ExtControl → Except IoError Unit) :
    set_controls kern [] =
      (.error (.custom .invalidInput "ctrls cannot be empty"), 0) :=
  rfl

/-- C7: fetching a Boolean-typed control maps raw value 1 — and only raw
value 1 — to `true`; every other raw value, nonzero ones included, maps to
`false`. -/
theorem control_boolean_strict (info : QCtrlInfo) (raw id : Nat)
    (h : info.typ = CtrlType.boolean) :
    ((control (.ok info) (.ok raw) id).1 = .ok ⟨id, .boolean true⟩ ↔ raw = 1) ∧
    (raw ≠ 1 → (control (.ok info) (.ok raw) id).1 = .ok ⟨id, .boolean false⟩) := by
  constructor
  · simp [control, descriptionFrom, h]
  · intro hne
    simp [control, descriptionFrom, h, hne]

/-- C7 witness: a Boolean control whose raw value is 2 is fetched as
`false`. -/
theorem control_boolean_strict_witness :
    boolInfoEx.typ = CtrlType.boolean ∧
    (((control (.ok boolInfoEx) (.ok 2) 9).1 = .ok ⟨9, .boolean true⟩ ↔ (2 : Nat) = 1) ∧
      ((2 : Nat) ≠ 1 → (control (.ok boolInfoEx) (.ok 2) 9).1 = .ok ⟨9, .boolean false⟩)) :=
  ⟨rfl, control_boolean_strict boolInfoEx 2 9 rfl⟩

/-- Helper: when the batch class is already fixed at `k`, the loop succeeds
only if every remaining control is of class `k`, and the resulting class is
still `k`. -/
theorem setControlsLoop_ok_some (l : List Control) (k : Nat) :
    ∀ acc cls? L, setControlsLoop l (some k) acc = .ok (cls?, L) →
    cls? = some k ∧ ∀ c ∈ l, c.id &&& 0xFFFF0000 = k := by
  induction l with
  | nil =>
    intro acc cls? L h
    simp only [setControlsLoop, Except.ok.injEq, Prod.mk.injEq] at h
    exact ⟨h.1.symm, by simp⟩
  | cons c rest ih =>
    intro acc cls? L h
    simp only [setControlsLoop] at h
    split at h
    · exact absurd h (by simp)
    · rename_i hk
      rw [not_ne_iff] at hk
      obtain ⟨h1, h2⟩ := ih _ _ _ h
      refine ⟨h1, ?_⟩
      intro x hx
      rcases List.mem_cons.mp hx with rfl | hx
      · exact hk.symm
      · exact h2 x hx

/-- Helper: the per-control loop only ever fails with the mixed-class
message. -/
theorem setControlsLoop_error_msg (l : List Control) :
    ∀ cls? acc msg, setControlsLoop l cls? acc = .error msg →
    msg = "All controls must be in the same class" := by
  induction l with
  | nil =>
    intro cls? acc msg h
    simp [setControlsLoop] at h
  | cons c rest ih =>
    intro cls? acc msg h
    cases cls? with
    | some k =>
      simp only [setControlsLoop] at h
      by_cases hk : k ≠ c.id &&& 0xFFFF0000
      · rw [if_pos hk] at h
        injection h with h2
        exact h2.symm
      · rw [if_neg hk] at h
        exact ih _ _ _ h
    | none =>
      simp only [setControlsLoop] at h
      exact ih _ _ _ h

/-- C2: a batch containing two controls of different classes (upper 16 bits
of the id) makes `set_controls` fail with an invalid-input error and issue
no kernel call at all (the modelled ioctl counter stays 0), whatever the
kernel would do. -/
theorem set_controls_mixed_class_rejected
    (kern : Nat → List ExtControl → Except IoError Unit) (ctrls : List Control)
    (a b : Control) (ha : a ∈ ctrls) (hb : b ∈ ctrls)
    (hne : a.id &&& 0xFFFF0000 ≠ b.id &&& 0xFFFF0000) :
    ∃ msg, set_controls kern ctrls = (.error (.custom .invalidInput msg), 0) := by
  by_cases hc : ctrls.length % 2 ^ 32 = 0
  · refine ⟨"ctrls cannot be empty", ?_⟩
    simp only [set_controls]
    rw [if_pos hc]
  · cases hl : setControlsLoop ctrls none [] with
    | error msg =>
      refine ⟨msg, ?_⟩
      simp only [set_controls]
      rw [if_neg hc, hl]
    | ok pair =>
      exfalso
      obtain ⟨cls?, L⟩ := pair
      cases ctrls with
      | nil => exact absurd ha (by simp)
      | cons c rest =>
        have hstep : setControlsLoop rest (some (c.id &&& 0xFFFF0000)) [marshal c] =
            .ok (cls?, L) := hl
        obtain ⟨-, hall⟩ := setControlsLoop_ok_some rest (c.id &&& 0xFFFF0000) _ _ _ hstep
        have hmask : ∀ x ∈ c :: rest, x.id &&& 0xFFFF0000 = c.id &&& 0xFFFF0000 := by
          intro x hx
          rcases List.mem_cons.mp hx with rfl | hx
          · rfl
          · exact hall x hx
        exact hne ((hmask a ha).trans (hmask b hb).symm)

/-- C2 witness: the concrete two-class batch from the spec's Scenario C is
rejected with invalid-input and zero kernel calls. -/
theorem set_controls_mixed_class_rejected_witness :
    (ctrlA ∈ mixedPair ∧ ctrlB ∈ mixedPair ∧
      ctrlA.id &&& 0xFFFF0000 ≠ ctrlB.id &&& 0xFFFF0000) ∧
    ∃ msg, set_controls okKernel mixedPair = (.error (.custom .invalidInput msg), 0) :=
  ⟨⟨by decide, by decide, by decide⟩,
    set_controls_mixed_class_rejected okKernel mixedPair ctrlA ctrlB
      (by decide) (by decide) (by decide)⟩

/-- C9: for every non-empty batch the per-control loop always determines a
class (its result is never `none`), so the defensive
"failed to determine control class" branch of `set_controls` cannot be
taken. -/
theorem set_controls_class_determined
    (kern : Nat → List ExtControl → Except IoError Unit) (ctrls : List Control)
    (h : ctrls ≠ []) :
    (∀ L, setControlsLoop ctrls none [] ≠ .ok (Option.none, L)) ∧
    set_controls kern ctrls ≠
      (.error (.custom .invalidInput "failed to determine control class"), 0) := by
  have hnone : ∀ L, setControlsLoop ctrls none [] ≠ .ok (Option.none, L) := by
    intro L hL
    cases ctrls with
    | nil => exact h rfl
    | cons c rest =>
      have hstep : setControlsLoop rest (some (c.id &&& 0xFFFF0000)) [marshal c] =
          .ok (Option.none, L) := hL
      obtain ⟨h1, -⟩ := setControlsLoop_ok_some rest (c.id &&& 0xFFFF0000) _ _ _ hstep
      exact Option.noConfusion h1
  refine ⟨hnone, ?_⟩
  by_cases hc : ctrls.length % 2 ^ 32 = 0
  · simp only [set_controls]
    rw [if_pos hc]
    intro heq
    simp only [Prod.mk.injEq, Except.error.injEq, IoError.custom.injEq] at heq
    exact absurd heq.1.2 (by decide)
  · cases hl : setControlsLoop ctrls none [] with
    | error msg =>
      have hmsg := setControlsLoop_error_msg ctrls none [] msg hl
      subst hmsg
      simp only [set_controls]
      rw [if_neg hc, hl]
      intro heq
      simp only [Prod.mk.injEq, Except.error.injEq, IoError.custom.injEq] at heq
      exact absurd heq.1.2 (by decide)
    | ok pair =>
      obtain ⟨cls?, L⟩ := pair
      cases cls? with
      | none => exact absurd hl (hnone L)
      | some k =>
        simp only [set_controls]
        rw [if_neg hc, hl]
        intro heq
        exact Nat.one_ne_zero (congrArg Prod.snd heq)

/-- C9 witness: a concrete singleton batch never reaches the defensive
branch. -/
theorem set_controls_class_determined_witness :
    [ctrlA] ≠ ([] : List Control) ∧
    ((∀ L, setControlsLoop [ctrlA] none [] ≠ .ok (Option.none, L)) ∧
      set_controls okKernel [ctrlA] ≠
        (.error (.custom .invalidInput "failed to determine control class"), 0)) :=
  ⟨by decide, set_controls_class_determined okKernel [ctrlA] (by decide)⟩

/-- Helper: cloning a handle reference `k` times adds `k` to the reference
count and never touches the resource. -/
theorem cloneRef_iterate (k : Nat) : ∀ m c, cloneRef^[k] ⟨m, c⟩ = ⟨m + k, c⟩ := by
  induction k with
  | zero => intro m c; rfl
  | succ k ih =>
    intro m c
    rw [Function.iterate_succ_apply]
    have h1 : cloneRef ⟨m, c⟩ = ⟨m + 1, c⟩ := rfl
    rw [h1, ih]
    congr 1
    omega

/-- Helper: dropping `k` references while more than `k` are live decrements
the count by `k` and never closes the resource. -/
theorem dropRef_iterate (k : Nat) : ∀ m c, 1 ≤ m → dropRef^[k] ⟨m + k, c⟩ = ⟨m, c⟩ := by
  induction k with
  | zero => intro m c _; rfl
  | succ k ih =>
    intro m c hm
    rw [Function.iterate_succ_apply]
    have h1 : dropRef ⟨m + (k + 1), c⟩ = ⟨m + k, c⟩ := by
      show (if m + (k + 1) = 1 then ({ count := 0, closed := c + 1 } : RcState)
        else { count := m + (k + 1) - 1, closed := c }) = ⟨m + k, c⟩
      rw [if_neg (by omega)]
      congr 1
    rw [h1]
    exact ih m c hm

/-- C4: out of `N` live references to a Device's handle (the Device's own
reference plus `N - 1` clones), dropping `N - 1` of them never closes the
underlying resource and leaves exactly one reference; dropping the last
remaining reference closes the resource exactly once. -/
theorem handle_refcount_last_drop_closes (N : Nat) (h : 1 ≤ N) :
    cloneRef^[N - 1] rcInit = ⟨N, 0⟩ ∧
    (dropRef^[N - 1] ⟨N, 0⟩).closed = 0 ∧
    (dropRef^[N - 1] ⟨N, 0⟩).count = 1 ∧
    dropRef^[N] ⟨N, 0⟩ = ⟨0, 1⟩ := by
  obtain ⟨M, rfl⟩ : ∃ M, N = M + 1 := ⟨N - 1, by omega⟩
  have hM : M + 1 - 1 = M := rfl
  rw [hM]
  have hclone : cloneRef^[M] rcInit = ⟨M + 1, 0⟩ := by
    rw [show rcInit = (⟨1, 0⟩ : RcState) from rfl, cloneRef_iterate]
    congr 1
    omega
  have hdrop : dropRef^[M] ⟨M + 1, 0⟩ = ⟨1, 0⟩ := by
    have := dropRef_iterate M 1 0 le_rfl
    rwa [show (1 + M : Nat) = M + 1 from by omega] at this
  refine ⟨hclone, by rw [hdrop], by rw [hdrop], ?_⟩
  rw [Function.iterate_succ_apply', hdrop]
  rfl

/-- C4 witness: three references, two drops leave the resource open with one
reference; the third drop closes it exactly once. -/
theorem handle_refcount_last_drop_closes_witness :
    1 ≤ 3 ∧
    (cloneRef^[3 - 1] rcInit = ⟨3, 0⟩ ∧
      (dropRef^[3 - 1] ⟨3, 0⟩).closed = 0 ∧
      (dropRef^[3 - 1] ⟨3, 0⟩).count = 1 ∧
      dropRef^[3] ⟨3, 0⟩ = ⟨0, 1⟩) :=
  ⟨by decide, handle_refcount_last_drop_closes 3 (by decide)⟩

/-- Helper: every description produced by the `query_controls` loop has
`items` populated exactly when its type is Menu or IntegerMenu, provided the
already-accumulated descriptions do. -/
theorem queryControlsAux_items_inv (d : Driver) (fuel : Nat) :
    ∀ curId acc l,
    (∀ x ∈ acc, (x.items.isSome = true ↔
      (x.typ = CtrlType.menu ∨ x.typ = CtrlType.integerMenu))) →
    queryControlsAux d fuel curId acc = .ok l →
    ∀ x ∈ l, (x.items.isSome = true ↔
      (x.typ = CtrlType.menu ∨ x.typ = CtrlType.integerMenu)) := by
  induction fuel with
  | zero =>
    intro curId acc l _ h
    exact absurd h (by simp [queryControlsAux])
  | succ fuel ih =>
    intro curId acc l hacc h
    simp only [queryControlsAux] at h
    cases hq : d.queryCtrl (curId ||| flagNextCtrl ||| flagNextCompound) with
    | ok info =>
      rw [hq] at h
      refine ih info.id _ l ?_ h
      intro x hx
      rcases List.mem_cons.mp hx with rfl | hx
      · by_cases hm : (descriptionFrom info).typ = CtrlType.menu ∨
            (descriptionFrom info).typ = CtrlType.integerMenu
        · simp only [if_pos hm]
          simpa using hm
        · simp only [if_neg hm]
          simpa [descriptionFrom] using hm
      · exact hacc x hx
    | error e =>
      rw [hq] at h
      have h' : (if acc.isEmpty = true ∨ e.kind ≠ ErrKind.invalidInput then QCOutcome.err e
          else QCOutcome.ok acc.reverse) = QCOutcome.ok l := h
      by_cases he : acc.isEmpty = true ∨ e.kind ≠ ErrKind.invalidInput
      · rw [if_pos he] at h'
        exact absurd h' (by simp)
      · rw [if_neg he] at h'
        injection h' with h2
        subst h2
        intro x hx
        exact hacc x (List.mem_reverse.mp hx)

/-- C6: every Description in a sequence successfully returned by
`query_controls` has `items` populated (`isSome`) if and only if its type is
Menu or IntegerMenu. -/
theorem query_controls_menu_items_iff (d : Driver) (fuel : Nat) (l : List Description)
    (h : query_controls d fuel = QCOutcome.ok l) (desc : Description) (hd : desc ∈ l) :
    desc.items.isSome = true ↔
      (desc.typ = CtrlType.menu ∨ desc.typ = CtrlType.integerMenu) :=
  queryControlsAux_items_inv d fuel 0 [] l (by simp) h desc hd

/-- C6 witness: the invariant at the menu control returned by the concrete
two-control driver. -/
theorem query_controls_menu_items_iff_witness :
    query_controls twoCtrlDriver 10 = QCOutcome.ok twoCtrlList ∧
    (menuDescEx.items.isSome = true ↔
      (menuDescEx.typ = CtrlType.menu ∨ menuDescEx.typ = CtrlType.integerMenu)) :=
  ⟨by decide,
    query_controls_menu_items_iff twoCtrlDriver 10 twoCtrlList (by decide)
      menuDescEx (by decide)⟩

/-- Helper: `i as u32` is the identity (as `toNat`) on `[0, 2^32)`. -/
theorem toU32_eq_toNat (i : Int) (h0 : 0 ≤ i) (h1 : i < 2 ^ 32) : toU32 i = i.toNat := by
  unfold toU32
  rw [Int.emod_eq_of_lt h0 h1]

/-- Helper: every index the stepped range yields lies in `[lo, hi]`. -/
theorem mem_menuIndices_bounds (lo hi step i : Int) (hstep : 0 < step)
    (h : i ∈ menuIndices lo hi step) : lo ≤ i ∧ i ≤ hi := by
  unfold menuIndices at h
  obtain ⟨k, hk, hke⟩ := List.mem_map.mp h
  rw [List.mem_range] at hk
  subst hke
  unfold gridCount at hk
  by_cases hlh : lo ≤ hi
  · rw [if_pos hlh] at hk
    have hnn : (0 : Int) ≤ (hi - lo) / step := Int.ediv_nonneg (by omega) (le_of_lt hstep)
    have hk' : (k : Int) ≤ (hi - lo) / step := by omega
    have hdm := Int.ediv_add_emod (hi - lo) step
    have hmn := Int.emod_nonneg (hi - lo) (ne_of_gt hstep)
    have hmul : step * (k : Int) ≤ step * ((hi - lo) / step) :=
      mul_le_mul_of_nonneg_left hk' (le_of_lt hstep)
    have hpos : 0 ≤ step * (k : Int) := mul_nonneg (le_of_lt hstep) (Int.natCast_nonneg k)
    constructor
    · linarith
    · linarith
  · rw [if_neg hlh] at hk
    exact absurd hk (Nat.not_lt_zero k)

/-- Helper: the stepped range is strictly ascending for a positive step. -/
theorem menuIndices_pairwise (lo hi step : Int) (hstep : 0 < step) :
    (menuIndices lo hi step).Pairwise (· < ·) := by
  unfold menuIndices
  refine List.Pairwise.map _ ?_ (List.pairwise_lt_range _)
  intro a b hab
  have hab' : (a : Int) < (b : Int) := by exact_mod_cast hab
  have := mul_lt_mul_of_pos_left hab' hstep
  linarith

/-- Helper: the indices of the scanned items are exactly the stepped-range
indices whose per-item query succeeded. -/
theorem menuScan_map_fst (q : Nat → Option MenuRaw) (typ : CtrlType) (lo hi step : Int) :
    (menuScan q typ lo hi step).map Prod.fst
      = ((menuIndices lo hi step).filter fun i => (q (toU32 i)).isSome).map toU32 := by
  unfold menuScan
  induction menuIndices lo hi step with
  | nil => rfl
  | cons i L ih =>
    cases hq : q (toU32 i) <;>
      simp [List.filterMap_cons, List.filter_cons, hq, ih]

/-- C5: for a well-formed menu range (positive step, nonnegative minimum,
maximum below 2^32), per-item query failures are skipped without aborting
the scan: the item list holds exactly the stepped indices whose query
succeeded, in ascending index order, each paired with the item its own
query returned. -/
theorem menuScan_skips_failures (q : Nat → Option MenuRaw) (typ : CtrlType)
    (lo hi step : Int) (hstep : 0 < step) (hlo : 0 ≤ lo) (hhi : hi < 2 ^ 32) :
    (menuScan q typ lo hi step).map Prod.fst =
      ((menuIndices lo hi step).filter fun i => (q (toU32 i)).isSome).map toU32 ∧
    ((menuScan q typ lo hi step).map Prod.fst).Pairwise (· < ·) ∧
    ∀ p ∈ menuScan q typ lo hi step,
      ∃ raw, q p.1 = some raw ∧ p.2 = menuItemFrom typ raw := by
  have hfst := menuScan_map_fst q typ lo hi step
  refine ⟨hfst, ?_, ?_⟩
  · rw [hfst, List.pairwise_map]
    have hpw : ((menuIndices lo hi step).filter fun i => (q (toU32 i)).isSome).Pairwise
        (· < · : Int → Int → Prop) :=
      List.Pairwise.sublist (List.filter_sublist _) (menuIndices_pairwise lo hi step hstep)
    refine hpw.imp_of_mem ?_
    intro a b ha hb hab
    obtain ⟨hla, hah⟩ := mem_menuIndices_bounds lo hi step a hstep (List.mem_of_mem_filter ha)
    obtain ⟨hlb, hbh⟩ := mem_menuIndices_bounds lo hi step b hstep (List.mem_of_mem_filter hb)
    rw [toU32_eq_toNat a (by omega) (by omega), toU32_eq_toNat b (by omega) (by omega)]
    omega
  · intro p hp
    unfold menuScan at hp
    obtain ⟨i, hi', hpe⟩ := List.mem_filterMap.mp hp
    cases hq : q (toU32 i) with
    | none => rw [hq] at hpe; exact absurd hpe (by simp)
    | some raw =>
      rw [hq] at hpe
      simp only [Option.map_some'] at hpe
      injection hpe with hpe
      subst hpe
      exact ⟨raw, hq, rfl⟩

/-- C5 witness: scanning `[0, 4]` with step 2 and a query failing at index 2
yields exactly the items at 0 and 4, in ascending order. -/
theorem menuScan_skips_failures_witness :
    ((0 : Int) < 2 ∧ (0 : Int) ≤ 0 ∧ (4 : Int) < 2 ^ 32) ∧
    ((menuScan sampleMenuQuery .integerMenu 0 4 2).map Prod.fst =
        ((menuIndices 0 4 2).filter fun i => (sampleMenuQuery (toU32 i)).isSome).map toU32 ∧
      ((menuScan sampleMenuQuery .integerMenu 0 4 2).map Prod.fst).Pairwise (· < ·) ∧
      ∀ p ∈ menuScan sampleMenuQuery .integerMenu 0 4 2,
        ∃ raw, sampleMenuQuery p.1 = some raw ∧ p.2 = menuItemFrom .integerMenu raw) :=
  ⟨⟨by decide, by decide, by decide⟩,
    menuScan_skips_failures sampleMenuQuery .integerMenu 0 4 2
      (by decide) (by decide) (by decide)⟩

/-- C8: when both queries succeed but the declared type is neither Integer,
Integer64 nor Boolean, `control` fails with the generic
"cannot handle control type" error, after having issued both ioctls. -/
theorem control_unsupported_type (info : QCtrlInfo) (raw id : Nat)
    (h1 : info.typ ≠ CtrlType.integer) (h2 : info.typ ≠ CtrlType.integer64)
    (h3 : info.typ ≠ CtrlType.boolean) :
    control (.ok info) (.ok raw) id =
      (.error (.custom .other "cannot handle control type"), 2) := by
  cases htyp : info.typ <;> simp_all [control, descriptionFrom]

/-- C8 witness: fetching a String-typed control fails with the generic
unsupported-type error after the two queries. -/
theorem control_unsupported_type_witness :
    control (.ok strInfoEx) (.ok 0) 5 =
      (.error (.custom .other "cannot handle control type"), 2) :=
  control_unsupported_type strInfoEx 0 5 (by decide) (by decide) (by decide)

/-- C10: an Integer64-typed control is fetched through the 32-bit
`VIDIOC_G_CTRL` request; the returned `Value.integer` is the sign extension
of the 32-bit raw value, hence always inside the signed 32-bit range. -/
theorem control_integer64_sign_extended (info : QCtrlInfo) (raw id : Nat)
    (h : info.typ = CtrlType.integer64) (hr : raw < 2 ^ 32) :
    (control (.ok info) (.ok raw) id).1 = .ok ⟨id, .integer (signExtend32 raw)⟩ ∧
    -(2 ^ 31 : Int) ≤ signExtend32 raw ∧ signExtend32 raw < 2 ^ 31 := by
  refine ⟨by simp [control, descriptionFrom, h], ?_, ?_⟩ <;>
    · unfold signExtend32
      split <;> omega

/-- C10 witness: raw bit pattern `2^31` comes back as `-2^31`, inside the
signed 32-bit range. -/
theorem control_integer64_sign_extended_witness :
    i64InfoEx.typ = CtrlType.integer64 ∧ (2 ^ 31 : Nat) < 2 ^ 32 ∧
    ((control (.ok i64InfoEx) (.ok (2 ^ 31)) 7).1 =
        .ok ⟨7, .integer (signExtend32 (2 ^ 31))⟩ ∧
      -(2 ^ 31 : Int) ≤ signExtend32 (2 ^ 31) ∧ signExtend32 (2 ^ 31) < 2 ^ 31) :=
  ⟨rfl, by decide, control_integer64_sign_extended i64InfoEx (2 ^ 31) 7 rfl (by decide)⟩

end LibV4l
